import Mathlib

/-!
Verification of the MyMath Remotion timeline engine.

The definitions below are a shallow embedding of the TypeScript sources:
- remotion/src/types.ts              (data model)
- remotion/src/Root.tsx              (two generations of calculateMetadata)
- remotion/src/compositions/MathVideo.tsx  (current and legacy scene layout)
- remotion/src/components/Scenes.tsx (AnimatedItem, FractionScene)

JS numbers are modelled as rationals, frame counts as integers.
Math.round is the Mathlib round (half toward positive infinity, which is
what JS Math.round does), Math.ceil is the integer ceiling.
-/

namespace MyMath

/-- JS falsy-default `v || d` for an optional numeric field:
`undefined` and `0` both fall through to the default. -/
def jsOr (v : Option ℚ) (d : ℚ) : ℚ :=
  match v with
  | none => d
  | some x => if x = 0 then d else x

/-- Whitespace characters recognised by the regex class backslash-s
(restricted to the ASCII ones that can occur in narration text). -/
def isWs (c : Char) : Bool :=
  c = ' ' || c = '\t' || c = '\n' || c = '\r' || c = '\x0b' || c = '\x0c'

/-- Number of maximal whitespace runs in a character list; the flag
records whether we are currently inside a run. -/
def wsRuns : Bool → List Char → Nat
  | _, [] => 0
  | inRun, c :: rest =>
    if isWs c then (if inRun then 0 else 1) + wsRuns true rest
    else wsRuns false rest

/-- Length of the JS array `s.split(/\s+/)`: one more than the number of
maximal whitespace runs (leading and trailing runs each contribute an
empty segment, exactly as String.prototype.split does). -/
def wordCount (s : String) : Nat := wsRuns false s.data + 1

/-- JS test `!s || s.trim() === ""`: the string has no non-whitespace
character. -/
def isBlank (s : String) : Bool := s.data.all isWs

/-- Fixed frame rate, `const FPS = 24` in Root.tsx and MathVideo.tsx. -/
def FPS : ℤ := 24

/-- One scene of the director script, from remotion/src/types.ts.
Optional numeric fields are rationals (JS numbers); `action` and
`animation_style` stay strings because the code dispatches on string
equality with a default arm. -/
structure DirectorScene where
  duration : ℚ
  action : String
  item_type : Option String := none
  count : Option ℚ := none
  groups : Option ℚ := none
  per_group : Option ℚ := none
  numerator : Option ℚ := none
  denominator : Option ℚ := none
  equation : Option String := none
  animation_style : String
  narration : String

/-- The director script, from remotion/src/types.ts.  Only `scenes`
drives the timeline; the other fields are carried for fidelity. -/
structure DirectorScript where
  title : String := ""
  grade : ℚ := 1
  topic : String := ""
  problem : String := ""
  correct_answer : String := ""
  visual_template : String := ""
  duration_seconds : ℚ := 0
  scenes : List DirectorScene
  checkpoint_question : String := ""
  practice_question : String := ""
  practice_answer : String := ""

/-- Stagger used by the Estimator in getVisualFrames (Root.tsx):
`Math.max(1, 40 / Math.max(1, total))`. -/
def estStagger (total : ℚ) : ℚ := max 1 (40 / max 1 total)

/-- Stagger used by the Item Animator in AnimatedItem (Scenes.tsx):
`Math.max(1, 40 / total)`. -/
def animStagger (total : ℚ) : ℚ := max 1 (40 / total)

/-- Per-item entrance delay in AnimatedItem: `Math.round(index * stagger)`. -/
def animDelay (index : ℕ) (total : ℚ) : ℤ :=
  round ((index : ℚ) * animStagger total)

/-- getVisualFrames from calculateMetadata in Root.tsx: frames needed for
every visual element of the scene to finish entering. -/
def getVisualFrames (scene : DirectorScene) : ℤ :=
  if scene.action = "SHOW_EQUATION" then 30
  else if scene.action = "SPLIT_ITEM" then
    let denom := max (jsOr scene.denominator 4) 1
    round ((denom - 1) * 6 + 25)
  else
    let total : ℚ :=
      if scene.action = "GROUP_ITEMS" then
        min (jsOr scene.groups 3) 10 * min (jsOr scene.per_group (jsOr scene.count 4)) 12
      else
        min (jsOr scene.count 5) 30
    let maxDelay := (total - 1) * estStagger total
    round (maxDelay + 30)

/-- Text-length fallback heuristic, identical in calculateMetadata
(Root.tsx, no-audio branch) and in MathVideo.sceneStarts: 4 seconds for
blank narration, otherwise `max(3, words / 2.5 + 1.5)` seconds. -/
def heuristicLen (fps : ℤ) (narration : String) : ℤ :=
  if isBlank narration then 4 * fps
  else
    let estimatedSeconds : ℚ := max 3 ((wordCount narration : ℚ) / 2.5 + 1.5)
    round (estimatedSeconds * (fps : ℚ))

/-- Outcome of one getAudioDurationInSeconds probe: resolved duration in
seconds, or a rejected promise. -/
inductive ProbeResult where
  | success (seconds : ℚ)
  | failure

/-- JS read `urls[i]`, with a missing entry behaving like the falsy
`undefined` (modelled as the empty string, which is also falsy). -/
def urlAt (urls : List String) (i : ℕ) : String := (urls[i]?).getD ""

/-- Per-scene duration negotiation: the body of the loop in
calculateMetadata (Root.tsx).  With a truthy url, a successful probe
gives `max(round((secs + 1.0) * FPS), visual + round(FPS * 0.5))` and a
failed probe gives the fixed `4 * FPS`; without a url the text-length
heuristic applies. -/
def negotiateScene (scene : DirectorScene) (url : String) (probe : ProbeResult) : ℤ :=
  if url ≠ "" then
    match probe with
    | .success audioSecs =>
      let audioFrames := round ((audioSecs + 1.0) * (FPS : ℚ))
      let visualFrames := getVisualFrames scene
      max audioFrames (visualFrames + round ((FPS : ℚ) * 0.5))
    | .failure => 4 * FPS
  else heuristicLen FPS scene.narration

/-- The sceneDurations array pushed by the calculateMetadata loop. -/
def negotiatedDurations (script : DirectorScript) (urls : List String)
    (probe : ℕ → ProbeResult) : List ℤ :=
  script.scenes.enum.map fun p => negotiateScene p.2 (urlAt urls p.1) (probe p.1)

/-- The totalFrames accumulator of the calculateMetadata loop: it adds
exactly the values pushed into sceneDurations. -/
def negotiatedTotalFrames (script : DirectorScript) (urls : List String)
    (probe : ℕ → ProbeResult) : ℤ :=
  (negotiatedDurations script urls probe).sum

/-- Duration chosen by MathVideo.sceneStarts for scene i:
`sceneDurations && sceneDurations[i]` (truthy, so present and nonzero)
wins, otherwise the text-length heuristic. -/
def mvSceneDur (fps : ℤ) (sceneDurations : Option (List ℤ))
    (scene : DirectorScene) (i : ℕ) : ℤ :=
  match sceneDurations.bind fun ds => ds[i]? with
  | some d => if d ≠ 0 then d else heuristicLen fps scene.narration
  | none => heuristicLen fps scene.narration

/-- Durations of all scenes as MathVideo computes them. -/
def mvDurations (fps : ℤ) (script : DirectorScript)
    (sceneDurations : Option (List ℤ)) : List ℤ :=
  script.scenes.enum.map fun p => mvSceneDur fps sceneDurations p.2 p.1

/-- Sequential layout accumulator: given the running frame counter c,
emit (start, dur) for each duration, advancing the counter.  This is the
`currentFrame` fold inside MathVideo.sceneStarts. -/
def layout {α : Type} [AddCommMonoid α] (c : α) : List α → List (α × α)
  | [] => []
  | d :: ds => (c, d) :: layout (c + d) ds

/-- sceneStarts of the current MathVideo component: scenes laid out
end-to-end from frame 0. -/
def sceneStarts (fps : ℤ) (script : DirectorScript)
    (sceneDurations : Option (List ℤ)) : List (ℤ × ℤ) :=
  layout 0 (mvDurations fps script sceneDurations)

/-- Observable output of one render of the current MathVideo component:
the scene Sequences (from, durationInFrames, narration text), the
per-scene audio Sequences (clip index, from), and the start of the
legacy single audio track when used. -/
structure MathVideoOutput where
  sceneSeqs : List (ℤ × ℤ × String)
  audioSeqs : List (ℕ × ℤ)
  singleAudioFrom : Option ℤ

/-- The current MathVideo component (MathVideo.tsx).  Per-scene audio
applies when audioUrls is present and nonempty: clip i is emitted only
for a truthy url, at `sceneStarts[i].start + Math.round(fps * 0.5)`;
otherwise a single legacy clip plays from frame 0 when audioUrl is
present.  The JS code indexes sceneStarts[i] directly (and would throw
for i beyond the scene list); we read the entry with a (0, 0) default
and state the theorems for audio lists no longer than the scene list. -/
def mathVideoRender (fps : ℤ) (script : DirectorScript) (audioUrl : Option String)
    (audioUrls : Option (List String)) (sceneDurations : Option (List ℤ)) :
    MathVideoOutput :=
  let tl := sceneStarts fps script sceneDurations
  let urls := audioUrls.getD []
  { sceneSeqs :=
      (tl.zip (script.scenes.map fun s => s.narration)).map fun p => (p.1.1, p.1.2, p.2)
    audioSeqs :=
      if 0 < urls.length then
        (List.range urls.length).filterMap fun i =>
          if urlAt urls i ≠ "" then
            some (i, (tl.getD i (0, 0)).1 + round ((fps : ℚ) * 0.5))
          else none
      else []
    singleAudioFrom :=
      if 0 < urls.length then none else audioUrl.map fun _ => 0 }

/-- Per-scene duration of the legacy MathVideo component:
`Math.max(1, scene.duration) * fps`, a rational number of frames with no
rounding. -/
def legacySceneDur (fps : ℤ) (scene : DirectorScene) : ℚ :=
  max 1 scene.duration * (fps : ℚ)

/-- The 2-second title card of the legacy MathVideo component. -/
def legacyTitleDuration (fps : ℤ) : ℤ := 2 * fps

/-- sceneStarts of the legacy MathVideo component: the counter starts
after the title card. -/
def legacySceneStarts (fps : ℤ) (script : DirectorScript) : List (ℚ × ℚ) :=
  layout ((legacyTitleDuration fps : ℤ) : ℚ) (script.scenes.map (legacySceneDur fps))

/-- calculateMetadata of the legacy Root.tsx:
`Math.ceil((2 + sum of max(1, duration)) * FPS)`. -/
def legacyTotalFrames (script : DirectorScript) : ℤ :=
  ⌈(2 + (script.scenes.map fun s => max 1 s.duration).sum) * (FPS : ℚ)⌉

/-- Numerator used by FractionScene (Scenes.tsx): `scene.numerator || 1`. -/
def fractionNumerator (scene : DirectorScene) : ℚ := jsOr scene.numerator 1

/-- Denominator used by FractionScene (Scenes.tsx):
`Math.max(scene.denominator || 4, 1)`. -/
def fractionDenominator (scene : DirectorScene) : ℚ :=
  max (jsOr scene.denominator 4) 1

/-! ### Helper lemmas -/

theorem layout_length {α : Type} [AddCommMonoid α] (c : α) (l : List α) :
    (layout c l).length = l.length := by
  induction l generalizing c with
  | nil => rfl
  | cons d ds ih => simpa [layout] using ih (c + d)

theorem layout_getElem? {α : Type} [AddCommMonoid α] (l : List α) (c : α) (i : ℕ) :
    (layout c l)[i]? = (l[i]?).map fun d => (c + (l.take i).sum, d) := by
  induction l generalizing c i with
  | nil => simp [layout]
  | cons d ds ih =>
    cases i with
    | zero => simp [layout]
    | succ j =>
      simp only [layout, List.getElem?_cons_succ, List.take_succ_cons, List.sum_cons,
        ih (c + d) j]
      cases ds[j]? <;> simp [add_assoc]

theorem layout_consecutive {α : Type} [AddCommMonoid α] (l : List α) (c : α)
    (i : ℕ) (s₁ d₁ s₂ d₂ : α)
    (h₁ : (layout c l)[i]? = some (s₁, d₁))
    (h₂ : (layout c l)[i + 1]? = some (s₂, d₂)) :
    s₂ = s₁ + d₁ := by
  rw [layout_getElem?] at h₁ h₂
  rcases hl₂ : l[i + 1]? with _ | e₂
  · rw [hl₂] at h₂; cases h₂
  have hi : i + 1 < l.length := (List.getElem?_eq_some.mp hl₂).1
  rw [List.getElem?_eq_getElem (show i < l.length by omega)] at h₁
  rw [hl₂] at h₂
  simp only [Option.map_some', Option.some.injEq, Prod.mk.injEq] at h₁ h₂
  obtain ⟨hs₁, hd₁⟩ := h₁
  obtain ⟨hs₂, -⟩ := h₂
  rw [← hs₂, ← hs₁, ← hd₁, List.sum_take_succ l i (by omega), ← add_assoc]

theorem negotiatedDurations_getElem? (script : DirectorScript) (urls : List String)
    (probe : ℕ → ProbeResult) (i : ℕ) :
    (negotiatedDurations script urls probe)[i]? =
      (script.scenes[i]?).map fun s => negotiateScene s (urlAt urls i) (probe i) := by
  rw [negotiatedDurations, List.getElem?_map, List.getElem?_enum]
  cases script.scenes[i]? <;> rfl

theorem negotiatedDurations_length (script : DirectorScript) (urls : List String)
    (probe : ℕ → ProbeResult) :
    (negotiatedDurations script urls probe).length = script.scenes.length := by
  simp [negotiatedDurations, List.enum_length]

theorem mvDurations_getElem? (fps : ℤ) (script : DirectorScript)
    (sceneDurations : Option (List ℤ)) (i : ℕ) :
    (mvDurations fps script sceneDurations)[i]? =
      (script.scenes[i]?).map fun s => mvSceneDur fps sceneDurations s i := by
  rw [mvDurations, List.getElem?_map, List.getElem?_enum]
  cases script.scenes[i]? <;> rfl

theorem heuristicLen_pos (narration : String) : 0 < heuristicLen FPS narration := by
  rw [heuristicLen]
  split
  · norm_num [FPS]
  · have h3 : (3 : ℚ) ≤ max 3 ((wordCount narration : ℚ) / 2.5 + 1.5) := le_max_left _ _
    have h72 : (72 : ℚ) ≤ max 3 ((wordCount narration : ℚ) / 2.5 + 1.5) * (FPS : ℚ) := by
      have : (0 : ℚ) < (FPS : ℚ) := by norm_num [FPS]
      calc (72 : ℚ) = 3 * 24 := by norm_num
        _ ≤ max 3 ((wordCount narration : ℚ) / 2.5 + 1.5) * (FPS : ℚ) := by
            apply mul_le_mul h3 (by norm_num [FPS]) (by norm_num) (le_trans (by norm_num) h3)
    have h : (72 : ℤ) ≤ round (max 3 ((wordCount narration : ℚ) / 2.5 + 1.5) * (FPS : ℚ)) := by
      rw [round_eq]
      exact Int.le_floor.mpr (by push_cast; linarith)
    show 0 < round (max 3 ((wordCount narration : ℚ) / 2.5 + 1.5) * (FPS : ℚ))
    omega

theorem negotiateScene_pos (scene : DirectorScene) (url : String) (pr : ProbeResult)
    (h : ∀ s, pr = .success s → 0 ≤ s) : 0 < negotiateScene scene url pr := by
  rw [negotiateScene.eq_def]
  split
  · cases pr with
    | success s =>
      have hs : (0 : ℚ) ≤ s := h s rfl
      have h24 : (24 : ℤ) ≤ round ((s + 1.0) * (FPS : ℚ)) := by
        rw [round_eq]
        apply Int.le_floor.mpr
        have : (24 : ℚ) ≤ (s + 1.0) * (FPS : ℚ) := by
          have : (1 : ℚ) ≤ s + 1.0 := by linarith
          calc (24 : ℚ) = 1 * 24 := by norm_num
            _ ≤ (s + 1.0) * (FPS : ℚ) := by
                apply mul_le_mul this (by norm_num [FPS]) (by norm_num) (by linarith)
        push_cast
        linarith
      calc (0 : ℤ) < 24 := by norm_num
        _ ≤ round ((s + 1.0) * (FPS : ℚ)) := h24
        _ ≤ _ := le_max_left _ _
    | failure => norm_num [FPS]
  · exact heuristicLen_pos scene.narration

/-- When the metadata phase feeds its own sceneDurations back into
MathVideo, the durations MathVideo uses are exactly the negotiated ones:
every negotiated duration is positive, hence truthy. -/
theorem mvDurations_negotiated (script : DirectorScript) (urls : List String)
    (probe : ℕ → ProbeResult) (hprobe : ∀ i s, probe i = .success s → 0 ≤ s) :
    mvDurations 24 script (some (negotiatedDurations script urls probe)) =
      negotiatedDurations script urls probe := by
  apply List.ext_getElem?
  intro i
  rw [mvDurations_getElem?, negotiatedDurations_getElem?]
  cases hs : script.scenes[i]? with
  | none => rfl
  | some s =>
    have hi : i < script.scenes.length := (List.getElem?_eq_some.mp hs).1
    have hd : (negotiatedDurations script urls probe)[i]? =
        some (negotiateScene s (urlAt urls i) (probe i)) := by
      rw [negotiatedDurations_getElem?, hs]; rfl
    have hpos : 0 < negotiateScene s (urlAt urls i) (probe i) :=
      negotiateScene_pos s (urlAt urls i) (probe i) (hprobe i)
    show some (mvSceneDur 24 (some (negotiatedDurations script urls probe)) s i) =
      some (negotiateScene s (urlAt urls i) (probe i))
    congr 1
    rw [mvSceneDur.eq_def]
    simp only [Option.some_bind, hd]
    rw [if_pos (by omega)]

theorem layout_map_snd {α : Type} [AddCommMonoid α] (c : α) (l : List α) :
    (layout c l).map Prod.snd = l := by
  induction l generalizing c with
  | nil => rfl
  | cons d ds ih => simp [layout, ih (c + d)]

/-! ### Concrete scenes and scripts used as test inputs -/

/-- Scenario B scene of the spec: ADD_ITEMS with count 3. -/
def sceneScenarioB : DirectorScene :=
  { duration := 5, action := "ADD_ITEMS", item_type := some "APPLE_SVG",
    count := some 3, animation_style := "BOUNCE_IN",
    narration := "Now we add more apples!" }

/-- A scene whose narration has ten whitespace-separated words. -/
def sceneTenWords : DirectorScene :=
  { duration := 5, action := "ADD_ITEMS", count := some 4,
    animation_style := "BOUNCE_IN",
    narration := "one two three four five six seven eight nine ten" }

/-- First scene of the two-scene witness script. -/
def sceneWitnessA : DirectorScene :=
  { duration := 5, action := "ADD_ITEMS", count := some 3,
    animation_style := "BOUNCE_IN", narration := "count with me" }

/-- Second scene of the two-scene witness script. -/
def sceneWitnessB : DirectorScene :=
  { duration := 5, action := "SHOW_EQUATION", equation := some "3 + 5 = 8",
    animation_style := "POP", narration := "three plus five equals eight" }

/-- Two-scene script used to instantiate universally quantified theorems. -/
def witnessScript : DirectorScript :=
  { scenes := [sceneWitnessA, sceneWitnessB] }

/-! ### Claim theorems -/

/-- C1: for every script with at least one scene and every combination of
probe outcomes (a probe resolves to a nonnegative duration or rejects),
the computed timeline has one entry per scene in script order, entry i
holds the negotiated duration of scene i and starts at the sum of the
lengths before it, the first scene starts at frame 0, consecutive scenes
abut exactly (no gap, no overlap), and the total frame count is the sum
of all scene lengths. -/
theorem timeline_invariants (script : DirectorScript) (urls : List String)
    (probe : ℕ → ProbeResult) (hne : script.scenes ≠ [])
    (hprobe : ∀ i s, probe i = .success s → 0 ≤ s) :
    (sceneStarts 24 script (some (negotiatedDurations script urls probe))).length =
      script.scenes.length ∧
    (∀ i s, script.scenes[i]? = some s →
      (sceneStarts 24 script (some (negotiatedDurations script urls probe)))[i]? =
        some (((negotiatedDurations script urls probe).take i).sum,
          negotiateScene s (urlAt urls i) (probe i))) ∧
    ((sceneStarts 24 script (some (negotiatedDurations script urls probe)))[0]?).map
      Prod.fst = some 0 ∧
    negotiatedTotalFrames script urls probe =
      ((sceneStarts 24 script (some (negotiatedDurations script urls probe))).map
        Prod.snd).sum ∧
    (∀ i s₁ d₁ s₂ d₂,
      (sceneStarts 24 script (some (negotiatedDurations script urls probe)))[i]? =
        some (s₁, d₁) →
      (sceneStarts 24 script (some (negotiatedDurations script urls probe)))[i + 1]? =
        some (s₂, d₂) →
      s₂ = s₁ + d₁) := by
  have hmv := mvDurations_negotiated script urls probe hprobe
  have hlen := negotiatedDurations_length script urls probe
  refine ⟨?_, ?_, ?_, ?_, ?_⟩
  · rw [sceneStarts, layout_length, hmv, hlen]
  · intro i s hs
    rw [sceneStarts, hmv, layout_getElem?]
    have hd : (negotiatedDurations script urls probe)[i]? =
        some (negotiateScene s (urlAt urls i) (probe i)) := by
      rw [negotiatedDurations_getElem?, hs]; rfl
    rw [hd, Option.map_some', zero_add]
  · rw [sceneStarts, hmv, layout_getElem?]
    have h0 : 0 < (negotiatedDurations script urls probe).length := by
      rw [hlen]; exact List.length_pos.mpr hne
    rw [List.getElem?_eq_getElem h0]
    simp
  · rw [negotiatedTotalFrames, sceneStarts, hmv, layout_map_snd]
  · intro i s₁ d₁ s₂ d₂ h₁ h₂
    exact layout_consecutive _ _ i _ _ _ _ (by rw [sceneStarts, hmv] at h₁; exact h₁)
      (by rw [sceneStarts, hmv] at h₂; exact h₂)

/-- Witness for C1: the two-scene witness script with one audio url whose
probe rejects. -/
theorem timeline_invariants_witness :
    negotiatedTotalFrames witnessScript ["w.mp3"] (fun _ => .failure) =
      ((sceneStarts 24 witnessScript
        (some (negotiatedDurations witnessScript ["w.mp3"] (fun _ => .failure)))).map
        Prod.snd).sum :=
  (timeline_invariants witnessScript ["w.mp3"] (fun _ => .failure)
    (by simp [witnessScript]) (fun _ s h => nomatch h)).2.2.2.1

/-- C2: with an audio reference and a successful probe returning
audio_seconds, the negotiated length is
max(round((audio_seconds + 1.0) * fps), visual_frames + round(fps * 0.5))
with visual_frames the Estimator output; for ADD_ITEMS with count 3,
audio duration 2.4 s and fps 24 this is 82 frames. -/
theorem audio_negotiated_length :
    (∀ (scene : DirectorScene) (url : String) (s : ℚ), url ≠ "" →
      negotiateScene scene url (.success s) =
        max (round ((s + 1.0) * (FPS : ℚ)))
          (getVisualFrames scene + round ((FPS : ℚ) * 0.5))) ∧
    negotiateScene sceneScenarioB "scene0.mp3" (.success 2.4) = 82 := by
  constructor
  · intro scene url s h
    rw [negotiateScene.eq_def, if_pos h]
  · simp +decide [negotiateScene, getVisualFrames, estStagger, jsOr, FPS, sceneScenarioB]
    norm_num [round_eq]

/-- Witness for C2 at a concrete scene, url and probe duration. -/
theorem audio_negotiated_length_witness :
    negotiateScene sceneScenarioB "scene0.mp3" (.success 2.4) =
      max (round (((2.4 : ℚ) + 1.0) * (FPS : ℚ)))
        (getVisualFrames sceneScenarioB + round ((FPS : ℚ) * 0.5)) :=
  audio_negotiated_length.1 sceneScenarioB "scene0.mp3" 2.4 (by decide)

/-- Counterexample to C3: when the probe for a scene with a ten-word
narration rejects, the code uses the fixed 96-frame fallback, not the
132 frames the text-length heuristic would give. -/
theorem probe_failure_fallback_counterexample :
    negotiateScene sceneTenWords "clip.mp3" .failure = 96 ∧
    heuristicLen FPS sceneTenWords.narration = 132 ∧ (96 : ℤ) ≠ 132 := by
  refine ⟨?_, ?_, by decide⟩
  · simp +decide [negotiateScene, FPS]
  · have h1 : wordCount sceneTenWords.narration = 10 := by decide
    have h2 : isBlank sceneTenWords.narration = false := by decide
    rw [heuristicLen, h2, h1]
    norm_num [round_eq, FPS]

/-- C3 (amended): a scene whose probe rejects gets the fixed fallback of
4 x fps frames; the text-length heuristic applies only when the scene
has no audio reference (4 x fps for blank narration, otherwise
round(max(3, words / 2.5 + 1.5) x fps)); a probe outcome is scene-local:
the duration of scene j depends only on probe j. -/
theorem probe_failure_fallback :
    (∀ (scene : DirectorScene) (url : String), url ≠ "" →
      negotiateScene scene url .failure = 4 * FPS) ∧
    (∀ (scene : DirectorScene) (pr : ProbeResult),
      negotiateScene scene "" pr = heuristicLen FPS scene.narration) ∧
    (∀ scene : DirectorScene, isBlank scene.narration = true →
      heuristicLen FPS scene.narration = 4 * FPS) ∧
    (∀ scene : DirectorScene, isBlank scene.narration = false →
      heuristicLen FPS scene.narration =
        round (max 3 ((wordCount scene.narration : ℚ) / 2.5 + 1.5) * (FPS : ℚ))) ∧
    (∀ (script : DirectorScript) (urls : List String)
        (probe probe' : ℕ → ProbeResult) (j : ℕ), probe j = probe' j →
      (negotiatedDurations script urls probe)[j]? =
        (negotiatedDurations script urls probe')[j]?) := by
  refine ⟨?_, ?_, ?_, ?_, ?_⟩
  · intro scene url h
    rw [negotiateScene.eq_def, if_pos h]
  · intro scene pr
    rw [negotiateScene.eq_def]
    simp
  · intro scene h
    simp [heuristicLen, h]
  · intro scene h
    simp [heuristicLen, h]
  · intro script urls probe probe' j h
    rw [negotiatedDurations_getElem?, negotiatedDurations_getElem?, h]

/-- Witness for C3 at a concrete scene and url. -/
theorem probe_failure_fallback_witness :
    negotiateScene sceneTenWords "x.mp3" .failure = 4 * FPS :=
  probe_failure_fallback.1 sceneTenWords "x.mp3" (by decide)

/-- SPLIT_ITEM scene with denominator 0, the input refuting C4. -/
def sceneSplitZeroC4 : DirectorScene :=
  { duration := 5, action := "SPLIT_ITEM", denominator := some 0,
    animation_style := "NONE", narration := "" }

/-- Counterexample to C4: for SPLIT_ITEM with denominator 0 the claimed
formula round((max(denominator, 1) - 1) * 6 + 25) gives 25, but the code
defaults a zero denominator to 4 and returns 43. -/
theorem estimator_formula_counterexample :
    getVisualFrames sceneSplitZeroC4 = 43 ∧
    round ((max (0 : ℚ) 1 - 1) * 6 + 25) = (25 : ℤ) ∧ (43 : ℤ) ≠ 25 := by
  refine ⟨?_, ?_, by decide⟩
  · simp +decide [getVisualFrames, jsOr, sceneSplitZeroC4]
    norm_num [round_eq]
  · norm_num [round_eq]

/-- C4 (amended): the Estimator returns 30 for SHOW_EQUATION;
round((max(d, 1) - 1) * 6 + 25) for SPLIT_ITEM where d is the
denominator with missing-or-zero defaulting to 4; otherwise
round((total - 1) * max(1, 40 / max(1, total)) + 30), with
total = min(groups, 10) * min(per_group or count, 12) for GROUP_ITEMS
and total = min(count, 30) for every other action, each missing-or-zero
field replaced by its default (groups 3, per_group falls back to count
then 4, count 5); a scene with total = 1 yields exactly 30 frames. -/
theorem estimator_formula :
    (∀ scene : DirectorScene, scene.action = "SHOW_EQUATION" →
      getVisualFrames scene = 30) ∧
    (∀ scene : DirectorScene, scene.action = "SPLIT_ITEM" →
      getVisualFrames scene =
        round ((max (jsOr scene.denominator 4) 1 - 1) * 6 + 25)) ∧
    (∀ scene : DirectorScene, scene.action = "GROUP_ITEMS" →
      getVisualFrames scene =
        round ((min (jsOr scene.groups 3) 10 *
            min (jsOr scene.per_group (jsOr scene.count 4)) 12 - 1) *
          estStagger (min (jsOr scene.groups 3) 10 *
            min (jsOr scene.per_group (jsOr scene.count 4)) 12) + 30)) ∧
    (∀ scene : DirectorScene, scene.action ≠ "SHOW_EQUATION" →
      scene.action ≠ "SPLIT_ITEM" → scene.action ≠ "GROUP_ITEMS" →
      getVisualFrames scene =
        round ((min (jsOr scene.count 5) 30 - 1) *
          estStagger (min (jsOr scene.count 5) 30) + 30)) ∧
    (∀ scene : DirectorScene, scene.action ≠ "SHOW_EQUATION" →
      scene.action ≠ "SPLIT_ITEM" → scene.action ≠ "GROUP_ITEMS" →
      min (jsOr scene.count 5) 30 = 1 → getVisualFrames scene = 30) := by
  refine ⟨?_, ?_, ?_, ?_, ?_⟩
  · intro scene h
    simp [getVisualFrames, h]
  · intro scene h
    simp +decide [getVisualFrames, h]
  · intro scene h
    simp +decide [getVisualFrames, h]
  · intro scene h1 h2 h3
    simp [getVisualFrames, h1, h2, h3]
  · intro scene h1 h2 h3 h4
    rw [getVisualFrames.eq_def, if_neg h1, if_neg h2, if_neg h3]
    rw [h4]
    norm_num [estStagger, round_eq]

/-- Witness for C4 at concrete scenes of each shape. -/
theorem estimator_formula_witness :
    getVisualFrames sceneWitnessB = 30 ∧
    getVisualFrames sceneSplitZeroC4 =
      round ((max (jsOr sceneSplitZeroC4.denominator 4) 1 - 1) * 6 + 25) :=
  ⟨estimator_formula.1 sceneWitnessB rfl,
   estimator_formula.2.1 sceneSplitZeroC4 rfl⟩

/-- C5: for every total of at least one item, the Estimator and the Item
Animator evaluate the same stagger max(1, 40 / total), the per-item
delay is round(i * stagger), and the rounded last-item delay agrees with
the rounding of the Estimator max_delay = (total - 1) * stagger. -/
theorem stagger_equivalence (total : ℕ) (htotal : 1 ≤ total) :
    estStagger (total : ℚ) = animStagger (total : ℚ) ∧
    (∀ i : ℕ, i < total →
      animDelay i (total : ℚ) = round ((i : ℚ) * animStagger (total : ℚ))) ∧
    round (((total : ℚ) - 1) * animStagger (total : ℚ)) =
      round (((total : ℚ) - 1) * estStagger (total : ℚ)) := by
  have h1 : (1 : ℚ) ≤ (total : ℚ) := by exact_mod_cast htotal
  have he : estStagger (total : ℚ) = animStagger (total : ℚ) := by
    rw [estStagger, animStagger, max_eq_right h1]
  exact ⟨he, fun i _ => rfl, by rw [he]⟩

/-- Witness for C5 at total 3, item index 2. -/
theorem stagger_equivalence_witness :
    estStagger ((3 : ℕ) : ℚ) = animStagger ((3 : ℕ) : ℚ) ∧
    animDelay 2 ((3 : ℕ) : ℚ) = round (((2 : ℕ) : ℚ) * animStagger ((3 : ℕ) : ℚ)) :=
  ⟨(stagger_equivalence 3 (by norm_num)).1,
   (stagger_equivalence 3 (by norm_num)).2.1 2 (by norm_num)⟩

/-- Five-second scene of the one-scene legacy script. -/
def sceneLegacyC6 : DirectorScene :=
  { duration := 5, action := "ADD_ITEMS",
    animation_style := "NONE", narration := "hello there" }

/-- One-scene script used to refute C6. -/
def legacyScriptC6 : DirectorScript :=
  { scenes := [sceneLegacyC6] }

/-- Scene with the fractional hint duration 1.02 seconds. -/
def sceneFracC6 : DirectorScene :=
  { duration := 1.02, action := "ADD_ITEMS",
    animation_style := "NONE", narration := "hi" }

/-- Counterexample to C6: for a single 5-second scene at 24 fps the
per-scene length is 120 frames, but the legacy metadata total is 168
frames: the 2-second title card contributes 48 more frames, so the
total is not the sum of the per-scene lengths.  Moreover a scene with
the fractional hint duration 1.02 s keeps the unrounded length
1.02 * 24 = 24.48 frames, not round(24.48) = 24. -/
theorem legacy_length_counterexample :
    legacyTotalFrames legacyScriptC6 = 168 ∧
    (legacyScriptC6.scenes.map fun s => round (max 1 s.duration * (FPS : ℚ))).sum =
      (120 : ℤ) ∧
    (168 : ℤ) ≠ 120 ∧
    legacySceneDur FPS sceneFracC6 ≠
      ((round (max 1 sceneFracC6.duration * (FPS : ℚ)) : ℤ) : ℚ) := by
  refine ⟨?_, ?_, by decide, ?_⟩
  · rw [legacyTotalFrames]
    simp [legacyScriptC6]
    norm_num [FPS, sceneLegacyC6]
  · simp [legacyScriptC6]
    norm_num [FPS, round_eq, sceneLegacyC6]
  · norm_num [legacySceneDur, sceneFracC6, FPS, round_eq]

/-- C6 (amended): in legacy hint-duration mode each scene length is
max(1, scene.duration) * fps with no rounding, and the legacy metadata
total equals the ceiling of the 2-second title card length plus the sum
of the per-scene lengths, not the bare sum of the per-scene lengths. -/
theorem legacy_length :
    (∀ scene : DirectorScene,
      legacySceneDur FPS scene = max 1 scene.duration * (FPS : ℚ)) ∧
    (∀ script : DirectorScript,
      legacyTotalFrames script =
        ⌈((legacyTitleDuration FPS : ℤ) : ℚ) +
          (script.scenes.map (legacySceneDur FPS)).sum⌉) := by
  refine ⟨fun scene => rfl, fun script => ?_⟩
  rw [legacyTotalFrames]
  congr 1
  have h : (script.scenes.map (legacySceneDur FPS)).sum =
      (script.scenes.map fun s => max 1 s.duration).sum * (FPS : ℚ) := by
    rw [← List.sum_map_mul_right]
    rfl
  rw [h]
  push_cast [legacyTitleDuration, FPS]
  ring

/-- Scenario A scene: SHOW_EQUATION with the spec narration. -/
def sceneScenarioA : DirectorScene :=
  { duration := 5, action := "SHOW_EQUATION", equation := some "3 + 5 = 8",
    animation_style := "POP", narration := "3 plus 5 equals 8! Great job!" }

/-- Counterexample to C7: the Scenario A narration splits into 7
whitespace-separated words, not 6, and the heuristic length is 103
frames, not 94. -/
theorem scenario_a_counterexample :
    wordCount sceneScenarioA.narration = 7 ∧
    heuristicLen FPS sceneScenarioA.narration = 103 ∧
    (103 : ℤ) ≠ 94 := by
  refine ⟨by decide, ?_, by decide⟩
  have h1 : wordCount sceneScenarioA.narration = 7 := by decide
  have h2 : isBlank sceneScenarioA.narration = false := by decide
  rw [heuristicLen, h2, h1]
  norm_num [round_eq, FPS]

/-- C7 (amended): for the Scenario A scene (SHOW_EQUATION, no audio
reference, narration with 7 whitespace-separated words, fps 24) both the
negotiator and the MathVideo fallback give
round(max(3, 7 / 2.5 + 1.5) * 24) = round(103.2) = 103 frames. -/
theorem scenario_a_length :
    negotiateScene sceneScenarioA "" .failure = 103 ∧
    mvSceneDur 24 none sceneScenarioA 0 = 103 ∧
    round (max 3 ((7 : ℚ) / 2.5 + 1.5) * 24) = (103 : ℤ) := by
  have h1 : wordCount sceneScenarioA.narration = 7 := by decide
  have h2 : isBlank sceneScenarioA.narration = false := by decide
  have hh : heuristicLen FPS sceneScenarioA.narration = 103 := by
    rw [heuristicLen, h2, h1]
    norm_num [round_eq, FPS]
  refine ⟨?_, ?_, by norm_num [round_eq]⟩
  · rw [negotiateScene.eq_def]
    simpa using hh
  · exact hh

/-- SPLIT_ITEM scene with a zero denominator, refuting C8. -/
def sceneSplitZeroC8 : DirectorScene :=
  { duration := 5, action := "SPLIT_ITEM", denominator := some 0,
    animation_style := "NONE", narration := "" }

/-- ADD_ITEMS scene with a negative count, refuting the clamping part
of C8. -/
def sceneNegCountC8 : DirectorScene :=
  { duration := 5, action := "ADD_ITEMS", count := some (-2),
    animation_style := "NONE", narration := "" }

/-- SPLIT_ITEM scene with a negative denominator, used for the C8
witness. -/
def sceneSplitNegC8 : DirectorScene :=
  { duration := 5, action := "SPLIT_ITEM", denominator := some (-3),
    animation_style := "NONE", narration := "" }

/-- Counterexample to C8: a denominator of 0 is not treated as 1 but as
the default 4 (the fraction layout draws 4 wedges and the Estimator
returns 43, where denominator 1 would give 25), and a negative count is
not clamped at all: the Estimator returns -90 frames for count -2. -/
theorem clamping_counterexample :
    fractionDenominator sceneSplitZeroC8 = 4 ∧ (4 : ℚ) ≠ 1 ∧
    getVisualFrames sceneSplitZeroC8 = 43 ∧
    getVisualFrames sceneNegCountC8 = -90 := by
  refine ⟨?_, by norm_num, ?_, ?_⟩
  · simp [fractionDenominator, jsOr, sceneSplitZeroC8]
  · simp +decide [getVisualFrames, jsOr, sceneSplitZeroC8]
    norm_num [round_eq]
  · simp +decide [getVisualFrames, jsOr, estStagger, sceneNegCountC8]
    norm_num [round_eq]

/-- C8 (amended): a strictly negative denominator is clamped to 1 in
both the Estimator and the fraction layout (a SPLIT_ITEM scene then
takes round((1 - 1) * 6 + 25) = 25 frames); a denominator of 0 or a
missing denominator instead takes the default 4. -/
theorem clamping :
    (∀ (scene : DirectorScene) (d : ℚ), scene.denominator = some d → d < 0 →
      fractionDenominator scene = 1 ∧
      (scene.action = "SPLIT_ITEM" → getVisualFrames scene = 25)) ∧
    (∀ scene : DirectorScene,
      scene.denominator = some 0 ∨ scene.denominator = none →
      fractionDenominator scene = 4) := by
  constructor
  · intro scene d hd hneg
    have hjs : jsOr scene.denominator 4 = d := by
      rw [hd]
      simp [jsOr, ne_of_lt hneg]
    have hmax : max (jsOr scene.denominator 4) 1 = 1 := by
      rw [hjs]
      exact max_eq_right (by linarith)
    refine ⟨by rw [fractionDenominator, hmax], fun ha => ?_⟩
    rw [getVisualFrames.eq_def, if_neg (by rw [ha]; decide), if_pos ha]
    show round ((max (jsOr scene.denominator 4) 1 - 1) * 6 + 25) = 25
    rw [hmax]
    norm_num [round_eq]
  · intro scene h
    rcases h with h | h <;>
      simp [fractionDenominator, jsOr, h]

/-- Witness for C8 at a concrete SPLIT_ITEM scene with denominator -3. -/
theorem clamping_witness :
    fractionDenominator sceneSplitNegC8 = 1 ∧ getVisualFrames sceneSplitNegC8 = 25 := by
  have h := clamping.1 sceneSplitNegC8 (-3) rfl (by norm_num)
  exact ⟨h.1, h.2 rfl⟩

theorem mvDurations_length (fps : ℤ) (script : DirectorScript)
    (sceneDurations : Option (List ℤ)) :
    (mvDurations fps script sceneDurations).length = script.scenes.length := by
  simp [mvDurations, List.enum_length]

/-- C9: in per-scene audio mode (audioUrls present, nonempty and no
longer than the scene list), the clip for every index with a nonempty
url starts at that scene start plus round(fps * 0.5); an index whose
url is missing or empty schedules no clip; and the scene Sequences are
independent of all audio parameters: every scene still renders with its
start, duration and narration caption. -/
theorem audio_alignment (fps : ℤ) (script : DirectorScript) (audioUrl : Option String)
    (urls : List String) (sceneDurations : Option (List ℤ))
    (hlen : urls.length ≤ script.scenes.length) (h0 : 0 < urls.length) :
    (∀ i, i < urls.length → urlAt urls i ≠ "" →
      (i, ((sceneStarts fps script sceneDurations).getD i (0, 0)).1 +
          round ((fps : ℚ) * 0.5)) ∈
        (mathVideoRender fps script audioUrl (some urls) sceneDurations).audioSeqs) ∧
    (∀ i x, urlAt urls i = "" →
      (i, x) ∉ (mathVideoRender fps script audioUrl (some urls) sceneDurations).audioSeqs) ∧
    (mathVideoRender fps script audioUrl (some urls) sceneDurations).sceneSeqs.length =
      script.scenes.length ∧
    (∀ (audioUrl' : Option String) (audioUrls' : Option (List String)),
      (mathVideoRender fps script audioUrl' audioUrls' sceneDurations).sceneSeqs =
        (mathVideoRender fps script audioUrl (some urls) sceneDurations).sceneSeqs) := by
  refine ⟨?_, ?_, ?_, fun _ _ => rfl⟩
  · intro i hi hurl
    simp only [mathVideoRender, Option.getD_some]
    rw [if_pos h0]
    refine List.mem_filterMap.mpr ⟨i, List.mem_range.mpr hi, ?_⟩
    rw [if_pos hurl]
  · intro i x hurl hmem
    simp only [mathVideoRender, Option.getD_some] at hmem
    rw [if_pos h0] at hmem
    obtain ⟨j, hj, hf⟩ := List.mem_filterMap.mp hmem
    by_cases hu : urlAt urls j ≠ ""
    · rw [if_pos hu] at hf
      obtain ⟨hji, -⟩ := Prod.mk.injEq .. |>.mp (Option.some.inj hf)
      rw [hji] at hu
      exact hu hurl
    · rw [if_neg hu] at hf
      cases hf
  · simp only [mathVideoRender]
    rw [List.length_map, List.length_zip, sceneStarts, layout_length,
      mvDurations_length, List.length_map, min_self]

/-- Witness for C9: witness script with a single nonempty audio url. -/
theorem audio_alignment_witness :
    (0, ((sceneStarts 24 witnessScript none).getD 0 (0, 0)).1 +
        round ((24 : ℚ) * 0.5)) ∈
      (mathVideoRender 24 witnessScript none (some ["a.mp3"]) none).audioSeqs :=
  (audio_alignment 24 witnessScript none ["a.mp3"] none
    (by simp [witnessScript]) (by norm_num)).1 0 (by norm_num) (by decide)

/-- C10: in the legacy single-audio renderer a 2-second title card
precedes the first scene: scene i starts at
2 * fps + sum over j < i of max(1, duration_j) * fps and lasts
max(1, duration_i) * fps, and the legacy metadata total is
ceil((2 + sum of max(1, duration_j)) * fps) at the fixed fps 24. -/
theorem legacy_title_card (fps : ℤ) (script : DirectorScript) :
    (∀ i s, script.scenes[i]? = some s →
      (legacySceneStarts fps script)[i]? =
        some (((2 * fps : ℤ) : ℚ) +
            ((script.scenes.take i).map fun t => max 1 t.duration * (fps : ℚ)).sum,
          max 1 s.duration * (fps : ℚ))) ∧
    legacyTotalFrames script =
      ⌈(2 + (script.scenes.map fun s => max 1 s.duration).sum) * ((FPS : ℤ) : ℚ)⌉ := by
  refine ⟨?_, rfl⟩
  intro i s hs
  rw [legacySceneStarts, layout_getElem?, List.getElem?_map, hs]
  simp only [Option.map_some', Option.some.injEq, Prod.mk.injEq]
  constructor
  · rw [List.map_take]
    push_cast [legacyTitleDuration]
    rfl
  · rfl

/-- Witness for C10: the first scene of the witness script starts right
after the title card. -/
theorem legacy_title_card_witness :
    (legacySceneStarts 24 witnessScript)[0]? =
      some (((2 * 24 : ℤ) : ℚ) +
          ((witnessScript.scenes.take 0).map fun t => max 1 t.duration * ((24 : ℤ) : ℚ)).sum,
        max 1 sceneWitnessA.duration * ((24 : ℤ) : ℚ)) :=
  (legacy_title_card 24 witnessScript).1 0 sceneWitnessA rfl

end MyMath
